import Mathlib

/-!
Shallow embedding of the jalashaya store application
(`src/jalashaya/store/views.py`, schema in `src/jalashaya/store/models.py`).

Monetary values (`DecimalField(max_digits=10, decimal_places=2)`) are
modelled as integer numbers of cents: every Decimal value occurring in the
code has exactly two decimal places, so arithmetic on cents is exact and
`.quantize(Decimal("0.01"))` (round-half-even) is the identity.
Database rows are modelled as lists; `get_object_or_404(Model, **filters)`
becomes `List.find?` on the matching predicate (slugs, SKUs and ids are
unique by schema).
-/

/-- A `ProductImage` row: `image_url`, `is_primary`
(`alt_text` and timestamps are irrelevant to the claims). -/
structure ProductImage where
  image_url : String
  is_primary : Bool
deriving DecidableEq, Repr

/-- A `Product` row.  `price` is in cents.  `category_is_active` denormalises
`product.category.is_active` (the `category__is_active` lookup).
`images` is the product's image list; for the list pages the queryset is
ordered `("-is_primary", "id")`, for `product.images.all()` it is insertion
order. -/
structure Product where
  id : Nat
  slug : String
  name : String
  price : Nat
  track_inventory : Bool
  stock_qty : Nat
  is_active : Bool
  category_is_active : Bool
  images : List ProductImage
deriving DecidableEq, Repr

/-- A `Branch` row (only the fields `create_order` reads). -/
structure Branch where
  id : Nat
  is_active : Bool
deriving DecidableEq, Repr

/-- An `Order` row as created by `Order.objects.create(...)` in
`create_order`.  Monetary fields are cents. -/
structure Order where
  customer_name : String
  customer_email : String
  customer_mobile : String
  product_id : Nat
  branch_id : Nat
  quantity : Int
  delivery_address : String
  note : Option String
  subtotal : Nat
  delivery_fee : Nat
  total_amount : Nat
  status : String
deriving DecidableEq, Repr

/-- A `ContactMessage` row. -/
structure ContactMessage where
  name : String
  email : String
  subject : String
  message : String
deriving DecidableEq, Repr

/-- The database state the claims touch: product, branch and order tables. -/
structure DB where
  products : List Product
  branches : List Branch
  orders : List Order
deriving DecidableEq, Repr

/-- `_get_primary_image(product)` from `views.py` lines 29-38:
`next((i for i in imgs if i.is_primary), None)` is `List.find?` on the
`is_primary` flag; if that is `None`, `next(iter(imgs), None)` is the head
of the list; a model instance is always truthy, so `if primary:` tests
`find?` for `some`. -/
def get_primary_image (imgs : List ProductImage) : Option String :=
  match imgs.find? (fun i => i.is_primary) with
  | some primary => some primary.image_url
  | none => imgs.head?.map (fun first => first.image_url)

/-- `_calc_totals(product, qty)` from `views.py` lines 41-56, on cents:
`qty = max(int(qty), 1)`; `subtotal = (price * Decimal(qty)).quantize("0.01")`
is exact on cents; fee is `20.00` when `subtotal < 200.00`, else `0.00`;
`total = (subtotal + delivery_fee).quantize("0.01")`, again exact.
Returns `(subtotal, delivery_fee, total)`. -/
def calc_totals (price : Nat) (qty : Int) : Nat × Nat × Nat :=
  let q : Nat := (max qty 1).toNat
  let subtotal : Nat := price * q
  let delivery_fee : Nat := if subtotal < 20000 then 2000 else 0
  let total : Nat := subtotal + delivery_fee
  (subtotal, delivery_fee, total)

/-- Drop leading and trailing whitespace from a character list. -/
def stripChars (cs : List Char) : List Char :=
  ((cs.dropWhile Char.isWhitespace).reverse.dropWhile Char.isWhitespace).reverse

/-- Python `str.strip()`: the string with surrounding whitespace removed. -/
def pyStrip (s : String) : String :=
  ⟨stripChars s.data⟩

/-- Python `int(s)` on a string: strips surrounding whitespace, then an
optional sign followed by a nonempty digit run; anything else raises
`ValueError`, modelled as `none`. -/
def pyInt (s : String) : Option Int :=
  let digitsToNat (ds : List Char) : Nat :=
    ds.foldl (fun a c => a * 10 + (c.toNat - 48)) 0
  match stripChars s.data with
  | [] => none
  | '-' :: ds =>
      if ds ≠ [] ∧ ds.all Char.isDigit then some (-(digitsToNat ds : Int)) else none
  | '+' :: ds =>
      if ds ≠ [] ∧ ds.all Char.isDigit then some (digitsToNat ds : Int) else none
  | ds =>
      if ds.all Char.isDigit then some (digitsToNat ds : Int) else none

/-- The POST payload of the order form.  `request.POST.get(key)` yields
`none` when the key is absent and `some ""` when present but empty.
Product ids (UUIDs) and branch ids are modelled as opaque `Nat`s; an absent
or non-matching id makes the `get_object_or_404` lookup fail either way. -/
structure OrderForm where
  product_id : Option Nat
  branch_id : Option Nat
  quantity : Option String
  customer_name : Option String
  customer_email : Option String
  customer_mobile : Option String
  delivery_address : Option String
  note : Option String
deriving DecidableEq, Repr

/-- Outcome of `create_order` as seen by the client: a success flash notice,
a `ValidationError` message flashed verbatim, or the generic
"Something went wrong while placing the order." flash produced by the
blanket `except Exception` handler (which also swallows the `Http404`
raised by `get_object_or_404`). -/
inductive CreateOrderOutcome where
  | success
  | validationError (msg : String)
  | genericError
deriving DecidableEq, Repr

/-- `get_object_or_404(Product, id=product_id, is_active=True)`:
the active product with the given id, if any (`id` is the unique primary
key).  A missing `product_id` never matches. -/
def findActiveProduct (db : DB) (pid : Option Nat) : Option Product :=
  match pid with
  | none => none
  | some i => db.products.find? (fun p => p.id == i && p.is_active)

/-- `get_object_or_404(Branch, id=branch_id, is_active=True)`. -/
def findActiveBranch (db : DB) (bid : Option Nat) : Option Branch :=
  match bid with
  | none => none
  | some i => db.branches.find? (fun b => b.id == i && b.is_active)

/-- Line 214 of `views.py`, `qty = int(request.POST.get("quantity") or 1)`:
an absent or empty (falsy) field falls back to the integer `1`; otherwise
the string goes through `int()`, whose `ValueError` is modelled as `none`. -/
def rawQty (f : OrderForm) : Option Int :=
  match f.quantity with
  | none => some 1
  | some s => if s = "" then some 1 else pyInt s

/-- The quantity `create_order` actually uses once parsing succeeded:
the parsed value with anything below 1 coerced to 1 (lines 234-235). -/
def parsedQty (f : OrderForm) : Option Int :=
  (rawQty f).map (fun q => if q < 1 then 1 else q)

/-- `create_order(request)` from `views.py` lines 201-270, faithful to the
code's control flow inside `@transaction.atomic`:

* line 214, `qty = int(request.POST.get("quantity") or 1)`: an absent or
  empty field falls back to `1`; a non-empty field that `int()` cannot
  parse raises `ValueError`, caught by `except Exception` → generic error.
* lines 216-229: trim the text fields; an empty required field raises
  `ValidationError` with the field-specific message.
* lines 231-232: product then branch lookup; `Http404` is caught by
  `except Exception` → generic error.
* lines 234-239: coerce `qty < 1` to `1`, then the inventory check raises
  `ValidationError("Not enough stock available.")`.
* lines 241-256: compute totals and create the `Order` row.
* line 260: `Product.objects.filter(...).update(stock_qty=models.F("stock_qty") - qty)`
  — but `views.py` never binds the name `models` (its imports are
  `from django.db.models import Prefetch` and `from .models import ...`),
  so this line raises `NameError` whenever `product.track_inventory` is
  true.  The `except Exception` clause catches it *inside* the atomic
  block, so the transaction commits normally: the `Order` row created at
  line 243 persists, no stock is decremented, and the client gets the
  generic error flash.  For untracked products line 260 is skipped and the
  view reaches the success flash.

Returns the new database state and the outcome. -/
def create_order (db : DB) (f : OrderForm) : DB × CreateOrderOutcome :=
  match rawQty f with
  | none => (db, .genericError)
  | some qty0 =>
    let customer_name := pyStrip (f.customer_name.getD "")
    let customer_email := pyStrip (f.customer_email.getD "")
    let customer_mobile := pyStrip (f.customer_mobile.getD "")
    let delivery_address := pyStrip (f.delivery_address.getD "")
    let note := pyStrip (f.note.getD "")
    if customer_name = "" then (db, .validationError "Customer name is required.")
    else if customer_email = "" then (db, .validationError "Email is required.")
    else if customer_mobile = "" then (db, .validationError "Mobile is required.")
    else if delivery_address = "" then (db, .validationError "Delivery address is required.")
    else
      match findActiveProduct db f.product_id with
      | none => (db, .genericError)
      | some product =>
        match findActiveBranch db f.branch_id with
        | none => (db, .genericError)
        | some branch =>
          let qty : Int := if qty0 < 1 then 1 else qty0
          if product.track_inventory = true ∧ (product.stock_qty : Int) < qty then
            (db, .validationError "Not enough stock available.")
          else
            let t := calc_totals product.price qty
            let order : Order :=
              { customer_name := customer_name
                customer_email := customer_email
                customer_mobile := customer_mobile
                product_id := product.id
                branch_id := branch.id
                quantity := qty
                delivery_address := delivery_address
                note := if note = "" then none else some note
                subtotal := t.1
                delivery_fee := t.2.1
                total_amount := t.2.2
                status := "pending" }
            let db' : DB := { db with orders := db.orders ++ [order] }
            if product.track_inventory then (db', .genericError)
            else (db', .success)

/-- The POST payload of the contact form. -/
structure ContactForm where
  name : Option String
  email : Option String
  subject : Option String
  message : Option String
deriving DecidableEq, Repr

/-- Outcome of `contact_submit`: success flash or error flash. -/
inductive ContactOutcome where
  | success
  | error (msg : String)
deriving DecidableEq, Repr

/-- `contact_submit(request)` from `views.py` lines 273-295: trim the four
fields; if any is empty, flash the single aggregate error and persist
nothing; otherwise create one `ContactMessage` row from the trimmed values
and flash success. -/
def contact_submit (msgs : List ContactMessage) (f : ContactForm) :
    List ContactMessage × ContactOutcome :=
  let name := pyStrip (f.name.getD "")
  let email := pyStrip (f.email.getD "")
  let subject := pyStrip (f.subject.getD "")
  let message_text := pyStrip (f.message.getD "")
  if name = "" || email = "" || subject = "" || message_text = "" then
    (msgs, .error "All fields are required.")
  else
    (msgs ++ [{ name := name, email := email, subject := subject,
                message := message_text }], .success)

/-- `product_detail(request, slug)` from `views.py` lines 167-189:
`get_object_or_404(Product, slug=slug, is_active=True, category__is_active=True)`
(`slug` is unique by schema).  `none` is the `Http404` not-found response;
`some p` renders product `p`. -/
def product_detail (db : DB) (slug : String) : Option Product :=
  db.products.find? (fun p => p.slug == slug && p.is_active && p.category_is_active)

/-- JSON response of `product_quick_info`:  `badRequest` is the
`status=400` response with the given error body, `notFound` the `Http404`,
and `ok` carries the payload fields
`id, name, price, track_inventory, stock_qty, image_url`. -/
inductive QuickInfoResp where
  | badRequest (err : String)
  | notFound
  | ok (id : Nat) (name : String) (price : Nat) (track_inventory : Bool)
       (stock_qty : Nat) (image_url : Option String)
deriving DecidableEq, Repr

/-- `product_quick_info(request)` from `views.py` lines 316-338:
`request.GET.get("product_id")` missing (or empty, which is equally falsy)
→ 400 `{"error": "product_id required"}`; then
`get_object_or_404(Product, id=product_id, is_active=True)` → 404 when no
active product matches; otherwise the JSON payload, whose `image_url` is
`_get_primary_image(product)` over the product's images. -/
def product_quick_info (db : DB) (product_id : Option Nat) : QuickInfoResp :=
  match product_id with
  | none => .badRequest "product_id required"
  | some pid =>
    match db.products.find? (fun p => p.id == pid && p.is_active) with
    | none => .notFound
    | some p =>
        .ok p.id p.name p.price p.track_inventory p.stock_qty
          (get_primary_image p.images)

/-- Fixture: an active, inventory-tracked product with stock 5
(price 50.00). -/
def prodTracked : Product :=
  { id := 1, slug := "ro-can", name := "RO Can 20L", price := 5000,
    track_inventory := true, stock_qty := 5, is_active := true,
    category_is_active := true, images := [] }

/-- Fixture: an active product that does not track inventory. -/
def prodUntracked : Product :=
  { id := 2, slug := "filter-jar", name := "Filter Jar", price := 5000,
    track_inventory := false, stock_qty := 0, is_active := true,
    category_is_active := true, images := [] }

/-- Fixture: an inactive product. -/
def prodInactive : Product :=
  { id := 3, slug := "old-can", name := "Old Can", price := 4000,
    track_inventory := false, stock_qty := 0, is_active := false,
    category_is_active := true, images := [] }

/-- Fixture: an active product whose category is inactive. -/
def prodHiddenCat : Product :=
  { id := 4, slug := "soda-can", name := "Soda Can", price := 30000,
    track_inventory := false, stock_qty := 3, is_active := true,
    category_is_active := false, images := [⟨"soda.jpg", false⟩] }

/-- Fixture: an active branch. -/
def branchStd : Branch :=
  { id := 7, is_active := true }

/-- Fixture database holding the four products above and one branch. -/
def dbStd : DB :=
  { products := [prodTracked, prodUntracked, prodInactive, prodHiddenCat],
    branches := [branchStd],
    orders := [] }

/-- Fixture order form with a given product id, raw quantity field and
customer name; the remaining fields are present and nonblank. -/
def orderFormWith (pid : Option Nat) (qty : Option String)
    (name : Option String) : OrderForm :=
  { product_id := pid, branch_id := some 7, quantity := qty,
    customer_name := name, customer_email := some "asha@example.com",
    customer_mobile := some "9876543210",
    delivery_address := some "12 Lake Road", note := none }

example : pyInt "  12 " = some 12 := by decide
example : pyInt "-3" = some (-3) := by decide
example : pyInt "abc" = none := by decide
example : pyInt "" = none := by decide
example : get_primary_image [] = none := by decide
example : get_primary_image [⟨"a", false⟩, ⟨"b", true⟩] = some "b" := by decide
example : calc_totals 15000 2 = (30000, 0, 30000) := by decide
example : calc_totals 5000 1 = (5000, 2000, 7000) := by decide
example :
    (create_order dbStd (orderFormWith (some 1) (some "2") (some "Asha Rao"))).2 =
      CreateOrderOutcome.genericError := by decide
example :
    (create_order dbStd (orderFormWith (some 2) (some "2") (some "Asha Rao"))).2 =
      CreateOrderOutcome.success := by decide
example :
    (create_order dbStd (orderFormWith (some 1) (some "9") (some "Asha Rao"))).2 =
      CreateOrderOutcome.validationError "Not enough stock available." := by decide
example :
    create_order dbStd (orderFormWith (some 2) (some "abc") (some "Asha Rao")) =
      (dbStd, CreateOrderOutcome.genericError) := by decide

/-- If no product in the table has the given id while active, the
`id`+`is_active` lookup finds nothing. -/
lemma find_active_id_eq_none (products : List Product) (pid : Nat)
    (h : ∀ p ∈ products, p.id = pid → p.is_active = false) :
    products.find? (fun p => p.id == pid && p.is_active) = none := by
  rw [List.find?_eq_none]
  intro p hp hcontra
  simp only [Bool.and_eq_true, beq_iff_eq] at hcontra
  have := h p hp hcontra.1
  rw [this] at hcontra
  exact Bool.false_ne_true hcontra.2

/-- If `p` is an active product with the given id and is the only row with
that id, the `id`+`is_active` lookup returns `p`. -/
lemma find_active_id_eq_some (products : List Product) (pid : Nat) (p : Product)
    (hmem : p ∈ products) (hid : p.id = pid) (hact : p.is_active = true)
    (huniq : ∀ q ∈ products, q.id = pid → q = p) :
    products.find? (fun q => q.id == pid && q.is_active) = some p := by
  cases hfind : products.find? (fun q => q.id == pid && q.is_active) with
  | none =>
      rw [List.find?_eq_none] at hfind
      exact absurd (by simp [hid, hact]) (hfind p hmem)
  | some k =>
      have hk := List.find?_some hfind
      have hkmem := List.mem_of_find?_eq_some hfind
      simp only [Bool.and_eq_true, beq_iff_eq] at hk
      rw [huniq k hkmem hk.1]

/-- If every product carrying the given slug is inactive or sits in an
inactive category, the detail-page lookup finds nothing. -/
lemma find_detail_eq_none (products : List Product) (slug : String)
    (h : ∀ p ∈ products, p.slug = slug →
      p.is_active = false ∨ p.category_is_active = false) :
    products.find?
      (fun p => p.slug == slug && p.is_active && p.category_is_active) = none := by
  rw [List.find?_eq_none]
  intro p hp hcontra
  simp only [Bool.and_eq_true, beq_iff_eq] at hcontra
  rcases h p hp hcontra.1.1 with h' | h'
  · rw [h'] at hcontra
    exact Bool.false_ne_true hcontra.1.2
  · rw [h'] at hcontra
    exact Bool.false_ne_true hcontra.2

/-- C2: for every product price `p` (cents) and requested quantity `q`,
`_calc_totals` returns `subtotal = p * max(q, 1)` (exact, so equal to the
claim's `round(p * max(q,1), 2)`), a delivery fee of 20.00 exactly when
the subtotal is below 200.00 and 0.00 otherwise — in particular a subtotal
of exactly 200.00 gets fee 0.00 — and `total = subtotal + delivery_fee`
(again exact). -/
theorem calc_totals_spec (price : Nat) (qty : Int) :
    (calc_totals price qty).1 = price * (max qty 1).toNat ∧
    ((calc_totals price qty).1 < 20000 → (calc_totals price qty).2.1 = 2000) ∧
    (¬ (calc_totals price qty).1 < 20000 → (calc_totals price qty).2.1 = 0) ∧
    ((calc_totals price qty).1 = 20000 → (calc_totals price qty).2.1 = 0) ∧
    (calc_totals price qty).2.2 =
      (calc_totals price qty).1 + (calc_totals price qty).2.1 := by
  unfold calc_totals
  refine ⟨rfl, ?_, ?_, ?_, rfl⟩
  · intro h
    simp only at h ⊢
    rw [if_pos h]
  · intro h
    simp only at h ⊢
    rw [if_neg h]
  · intro h
    simp only at h ⊢
    rw [h]
    rfl

/-- C2 witness: price 100.00, quantity 2 — the boundary case: subtotal is
exactly 200.00 and the delivery fee is 0.00. -/
theorem calc_totals_spec_witness :
    (calc_totals 10000 2).1 = 20000 ∧ (calc_totals 10000 2).2.1 = 0 :=
  ⟨by decide, (calc_totals_spec 10000 2).2.2.2.1 (by decide)⟩

/-- C5: a contact submission with any of the four fields empty after
trimming is rejected with the single aggregate error and persists nothing;
with all four non-empty after trimming, exactly one `ContactMessage` row is
appended, holding the submitted values with only surrounding whitespace
stripped. -/
theorem contact_submit_spec (msgs : List ContactMessage) (f : ContactForm) :
    ((pyStrip (f.name.getD "") = "" ∨ pyStrip (f.email.getD "") = "" ∨
      pyStrip (f.subject.getD "") = "" ∨ pyStrip (f.message.getD "") = "") →
      contact_submit msgs f = (msgs, ContactOutcome.error "All fields are required.")) ∧
    ((pyStrip (f.name.getD "") ≠ "" ∧ pyStrip (f.email.getD "") ≠ "" ∧
      pyStrip (f.subject.getD "") ≠ "" ∧ pyStrip (f.message.getD "") ≠ "") →
      contact_submit msgs f =
        (msgs ++ [{ name := pyStrip (f.name.getD ""),
                    email := pyStrip (f.email.getD ""),
                    subject := pyStrip (f.subject.getD ""),
                    message := pyStrip (f.message.getD "") }],
         ContactOutcome.success)) := by
  constructor
  · intro h
    unfold contact_submit
    rcases h with h | h | h | h <;> simp [h]
  · rintro ⟨h1, h2, h3, h4⟩
    unfold contact_submit
    simp [h1, h2, h3, h4]

/-- C5 witness: a blank subject is rejected without persisting; a fully
filled form appends exactly one row with the trimmed values. -/
theorem contact_submit_spec_witness :
    contact_submit [] ⟨some "Asha", some "a@b.example", some "  ", some "Hi"⟩ =
      ([], ContactOutcome.error "All fields are required.") ∧
    contact_submit [] ⟨some " Asha ", some "a@b.example", some "Water", some "Hi"⟩ =
      ([⟨"Asha", "a@b.example", "Water", "Hi"⟩], ContactOutcome.success) :=
  ⟨(contact_submit_spec [] ⟨some "Asha", some "a@b.example", some "  ", some "Hi"⟩).1
     (Or.inr (Or.inr (Or.inl (by decide)))),
   (contact_submit_spec [] ⟨some " Asha ", some "a@b.example", some "Water", some "Hi"⟩).2
     ⟨by decide, by decide, by decide, by decide⟩⟩

/-- C6: the effective display image of a product is `none` when it has no
images; when exactly one image is flagged primary it is that image's URL,
wherever it sits in the list; and when no image is flagged primary it is
the URL of the first image in the list order (which, with no primary flag
set, coincides with insertion order under the `("-is_primary", "id")`
queryset ordering). -/
theorem get_primary_image_spec (imgs : List ProductImage) :
    (imgs = [] → get_primary_image imgs = none) ∧
    (∀ i ∈ imgs, i.is_primary = true →
      (∀ j ∈ imgs, j.is_primary = true → j = i) →
      get_primary_image imgs = some i.image_url) ∧
    (∀ hd tl, imgs = hd :: tl → (∀ j ∈ imgs, j.is_primary = false) →
      get_primary_image imgs = some hd.image_url) := by
  refine ⟨?_, ?_, ?_⟩
  · rintro rfl
    rfl
  · intro i hi hip huniq
    unfold get_primary_image
    cases hfind : imgs.find? (fun x => x.is_primary) with
    | none =>
        rw [List.find?_eq_none] at hfind
        exact absurd hip (by simpa using hfind i hi)
    | some k =>
        have hk : k.is_primary = true := List.find?_some hfind
        have hkmem : k ∈ imgs := List.mem_of_find?_eq_some hfind
        rw [huniq k hkmem hk]
  · intro hd tl heq hnone
    unfold get_primary_image
    have hfind : imgs.find? (fun x => x.is_primary) = none := by
      rw [List.find?_eq_none]
      intro x hx
      simp [hnone x hx]
    rw [hfind, heq]
    rfl

/-- C6 witness: two images with the primary one inserted second — its URL
wins; and the empty image list yields `none`. -/
theorem get_primary_image_spec_witness :
    get_primary_image [⟨"first.jpg", false⟩, ⟨"second.jpg", true⟩] =
      some "second.jpg" ∧
    get_primary_image ([] : List ProductImage) = none :=
  ⟨(get_primary_image_spec [⟨"first.jpg", false⟩, ⟨"second.jpg", true⟩]).2.1
     ⟨"second.jpg", true⟩ (by decide) (by decide) (by decide),
   (get_primary_image_spec []).1 rfl⟩

/-- C7: requesting `/product/<slug>/` for a slug that belongs to no product,
or only to inactive products, yields the not-found response (`none`) and
never a rendered product.  (The lookup also requires the category to be
active, which only widens the not-found set.) -/
theorem product_detail_not_found (db : DB) (slug : String)
    (h : ∀ p ∈ db.products, p.slug = slug → p.is_active = false) :
    product_detail db slug = none := by
  unfold product_detail
  exact find_detail_eq_none db.products slug (fun p hp hs => Or.inl (h p hp hs))

/-- C7 witness: the fixture database's inactive product's slug, and a slug
belonging to nothing, both return not-found. -/
theorem product_detail_not_found_witness :
    product_detail dbStd "old-can" = none ∧
    product_detail dbStd "no-such-slug" = none :=
  ⟨product_detail_not_found dbStd "old-can" (by decide),
   product_detail_not_found dbStd "no-such-slug" (by decide)⟩

/-- C8: the quick-info endpoint with no `product_id` answers the 400
response with body `{"error": "product_id required"}`; with an id that
matches no active product it answers not-found; and with the id of an
active product (ids are unique) it answers that product's name, price,
inventory flag, stock quantity and effective display image. -/
theorem product_quick_info_spec (db : DB) (pid? : Option Nat) :
    (pid? = none →
      product_quick_info db pid? = QuickInfoResp.badRequest "product_id required") ∧
    (∀ pid, pid? = some pid →
      (∀ p ∈ db.products, p.id = pid → p.is_active = false) →
      product_quick_info db pid? = QuickInfoResp.notFound) ∧
    (∀ pid p, pid? = some pid → p ∈ db.products → p.id = pid →
      p.is_active = true → (∀ q ∈ db.products, q.id = pid → q = p) →
      product_quick_info db pid? =
        QuickInfoResp.ok p.id p.name p.price p.track_inventory p.stock_qty
          (get_primary_image p.images)) := by
  refine ⟨?_, ?_, ?_⟩
  · rintro rfl
    rfl
  · rintro pid rfl h
    unfold product_quick_info
    dsimp only
    rw [find_active_id_eq_none db.products pid h]
  · rintro pid p rfl hmem hid hact huniq
    unfold product_quick_info
    dsimp only
    rw [find_active_id_eq_some db.products pid p hmem hid hact huniq]

/-- C8 witness: the three cases of `product_quick_info` evaluated on the
fixture database (missing parameter; inactive product id 3; active
tracked product id 1). -/
theorem product_quick_info_spec_witness :
    product_quick_info dbStd none = QuickInfoResp.badRequest "product_id required" ∧
    product_quick_info dbStd (some 3) = QuickInfoResp.notFound ∧
    product_quick_info dbStd (some 1) =
      QuickInfoResp.ok 1 "RO Can 20L" 5000 true 5 none :=
  ⟨(product_quick_info_spec dbStd none).1 rfl,
   (product_quick_info_spec dbStd (some 3)).2.1 3 rfl (by decide),
   (product_quick_info_spec dbStd (some 1)).2.2 1 prodTracked rfl (by decide)
     (by decide) (by decide) (by decide)⟩

/-- C10: an active product in an inactive category is served with full data
by the quick-info endpoint (which filters only on the product's own active
flag) while the detail page for its slug answers not-found (its lookup also
requires `category__is_active=True`) — the two public read paths disagree
on such a product's visibility. -/
theorem quick_info_detail_disagree (db : DB) (p : Product)
    (hmem : p ∈ db.products) (hact : p.is_active = true)
    (hcat : p.category_is_active = false)
    (hid : ∀ q ∈ db.products, q.id = p.id → q = p)
    (hslug : ∀ q ∈ db.products, q.slug = p.slug → q = p) :
    product_quick_info db (some p.id) =
      QuickInfoResp.ok p.id p.name p.price p.track_inventory p.stock_qty
        (get_primary_image p.images) ∧
    product_detail db p.slug = none := by
  constructor
  · unfold product_quick_info
    dsimp only
    rw [find_active_id_eq_some db.products p.id p hmem rfl hact hid]
  · unfold product_detail
    refine find_detail_eq_none db.products p.slug (fun q hq hs => ?_)
    rw [hslug q hq hs]
    exact Or.inr hcat

/-- C10 witness: fixture product id 4 (`soda-can`) is active in an inactive
category: quick info returns its payload, the detail page returns
not-found. -/
theorem quick_info_detail_disagree_witness :
    product_quick_info dbStd (some 4) =
      QuickInfoResp.ok 4 "Soda Can" 30000 false 3 (some "soda.jpg") ∧
    product_detail dbStd "soda-can" = none :=
  quick_info_detail_disagree dbStd prodHiddenCat (by decide) (by decide)
    (by decide) (by decide) (by decide)

/-- C1: the claim fails on the code.  For the fixture tracked product
(stock 5) and a valid order of quantity 2 ≤ 5, the placement does not
succeed and does not decrement stock: line 260 evaluates `models.F` but
`views.py` never binds `models`, so a `NameError` is raised, caught by the
blanket handler inside the atomic block.  The outcome is the generic
error flash, the product table (hence `stock_qty = 5`) is unchanged, and
the already created `Order` row (quantity 2) has committed. -/
theorem create_order_tracked_stock_bug :
    (create_order dbStd (orderFormWith (some 1) (some "2") (some "Asha Rao"))).2 =
      CreateOrderOutcome.genericError ∧
    (create_order dbStd (orderFormWith (some 1) (some "2") (some "Asha Rao"))).1.products =
      dbStd.products ∧
    ((create_order dbStd (orderFormWith (some 1) (some "2") (some "Asha Rao"))).1.orders.map
      Order.quantity) = [2] :=
  ⟨by decide, by decide, by decide⟩

/-- C4 counterexample: a present, non-empty quantity field that does not
parse as an integer (`"abc"`) does not proceed with quantity 1 — `int()`
raises `ValueError`, the blanket handler flashes the generic error, and no
order is created (the database is unchanged). -/
theorem create_order_unparseable_qty_counterexample :
    create_order dbStd (orderFormWith (some 2) (some "abc") (some "Asha Rao")) =
      (dbStd, CreateOrderOutcome.genericError) := by
  decide

/-- C4 amended: if the quantity field is missing or empty, or parses to an
integer below 1, the placement proceeds with quantity coerced to 1: with
the other validations passing (non-blank text fields, active product and
branch, stock permitting one unit), an `Order` row with quantity 1 is
appended. -/
theorem create_order_qty_coerced_to_one (db : DB) (f : OrderForm)
    (hq : f.quantity = none ∨ f.quantity = some "" ∨
          (∃ s q, f.quantity = some s ∧ pyInt s = some q ∧ q < 1))
    (h1 : pyStrip (f.customer_name.getD "") ≠ "")
    (h2 : pyStrip (f.customer_email.getD "") ≠ "")
    (h3 : pyStrip (f.customer_mobile.getD "") ≠ "")
    (h4 : pyStrip (f.delivery_address.getD "") ≠ "")
    (p : Product) (hp : findActiveProduct db f.product_id = some p)
    (hstock : p.track_inventory = false ∨ 1 ≤ p.stock_qty)
    (b : Branch) (hb : findActiveBranch db f.branch_id = some b) :
    ∃ o, (create_order db f).1.orders = db.orders ++ [o] ∧ o.quantity = 1 := by
  have hraw : ∃ q0, rawQty f = some q0 ∧
      (if q0 < (1 : Int) then (1 : Int) else q0) = 1 := by
    rcases hq with h | h | ⟨s, q, hs, hpy, hlt⟩
    · exact ⟨1, by simp [rawQty, h], by norm_num⟩
    · exact ⟨1, by simp [rawQty, h], by norm_num⟩
    · by_cases hse : s = ""
      · exact ⟨1, by simp [rawQty, hs, hse], by norm_num⟩
      · exact ⟨q, by simp [rawQty, hs, hse, hpy], if_pos hlt⟩
  obtain ⟨q0, hq0, hco⟩ := hraw
  have hinv : ¬(p.track_inventory = true ∧ (p.stock_qty : Int) < 1) := by
    rcases hstock with h | h
    · rintro ⟨ht, -⟩
      rw [h] at ht
      exact Bool.false_ne_true ht
    · rintro ⟨-, hlt⟩
      omega
  unfold create_order
  simp only [hq0, hp, hb, if_neg h1, if_neg h2, if_neg h3, if_neg h4, hco]
  rw [if_neg hinv]
  cases p.track_inventory
  · rw [if_neg Bool.false_ne_true]
    exact ⟨_, rfl, rfl⟩
  · rw [if_pos rfl]
    exact ⟨_, rfl, rfl⟩

/-- C4 witness: quantity field `"0"` (parses to 0 < 1) against the
untracked fixture product: an order with quantity 1 is created. -/
theorem create_order_qty_coerced_to_one_witness :
    ∃ o, (create_order dbStd (orderFormWith (some 2) (some "0") (some "Asha Rao"))).1.orders =
      dbStd.orders ++ [o] ∧ o.quantity = 1 :=
  create_order_qty_coerced_to_one dbStd
    (orderFormWith (some 2) (some "0") (some "Asha Rao"))
    (Or.inr (Or.inr ⟨"0", 0, rfl, by decide, by decide⟩))
    (by decide) (by decide) (by decide) (by decide)
    prodUntracked (by decide) (Or.inl (by decide)) branchStd (by decide)

/-- C3: a submission failing any validation step — an empty required field
after trimming (in particular `customer_name`), an unknown or inactive
product or branch, or insufficient stock — leaves the database untouched:
no `Order` row is created, no product (hence no stock quantity) is
changed, and the outcome is not success. -/
theorem create_order_validation_failure_no_effect (db : DB) (f : OrderForm)
    (h : pyStrip (f.customer_name.getD "") = "" ∨
         pyStrip (f.customer_email.getD "") = "" ∨
         pyStrip (f.customer_mobile.getD "") = "" ∨
         pyStrip (f.delivery_address.getD "") = "" ∨
         findActiveProduct db f.product_id = none ∨
         findActiveBranch db f.branch_id = none ∨
         (∃ p q, findActiveProduct db f.product_id = some p ∧
            parsedQty f = some q ∧ p.track_inventory = true ∧
            (p.stock_qty : Int) < q)) :
    (create_order db f).1 = db ∧
    (create_order db f).2 ≠ CreateOrderOutcome.success := by
  cases hq0 : rawQty f with
  | none =>
      have he : create_order db f = (db, CreateOrderOutcome.genericError) := by
        unfold create_order
        simp only [hq0]
      rw [he]
      exact ⟨rfl, by simp⟩
  | some q0 =>
      by_cases h1 : pyStrip (f.customer_name.getD "") = ""
      · have he : create_order db f =
            (db, CreateOrderOutcome.validationError "Customer name is required.") := by
          unfold create_order
          simp only [hq0, if_pos h1]
        rw [he]
        exact ⟨rfl, by simp⟩
      by_cases h2 : pyStrip (f.customer_email.getD "") = ""
      · have he : create_order db f =
            (db, CreateOrderOutcome.validationError "Email is required.") := by
          unfold create_order
          simp only [hq0, if_neg h1, if_pos h2]
        rw [he]
        exact ⟨rfl, by simp⟩
      by_cases h3 : pyStrip (f.customer_mobile.getD "") = ""
      · have he : create_order db f =
            (db, CreateOrderOutcome.validationError "Mobile is required.") := by
          unfold create_order
          simp only [hq0, if_neg h1, if_neg h2, if_pos h3]
        rw [he]
        exact ⟨rfl, by simp⟩
      by_cases h4 : pyStrip (f.delivery_address.getD "") = ""
      · have he : create_order db f =
            (db, CreateOrderOutcome.validationError "Delivery address is required.") := by
          unfold create_order
          simp only [hq0, if_neg h1, if_neg h2, if_neg h3, if_pos h4]
        rw [he]
        exact ⟨rfl, by simp⟩
      cases hp : findActiveProduct db f.product_id with
      | none =>
          have he : create_order db f = (db, CreateOrderOutcome.genericError) := by
            unfold create_order
            simp only [hq0, if_neg h1, if_neg h2, if_neg h3, if_neg h4, hp]
          rw [he]
          exact ⟨rfl, by simp⟩
      | some p =>
          cases hb : findActiveBranch db f.branch_id with
          | none =>
              have he : create_order db f = (db, CreateOrderOutcome.genericError) := by
                unfold create_order
                simp only [hq0, if_neg h1, if_neg h2, if_neg h3, if_neg h4, hp, hb]
              rw [he]
              exact ⟨rfl, by simp⟩
          | some b =>
              rcases h with h | h | h | h | h | h | ⟨p', q, hp', hq', htr, hlt⟩
              · exact absurd h h1
              · exact absurd h h2
              · exact absurd h h3
              · exact absurd h h4
              · rw [hp] at h
                cases h
              · rw [hb] at h
                cases h
              · rw [hp] at hp'
                injection hp' with he'
                subst he'
                have hqv : q = if q0 < (1 : Int) then 1 else q0 := by
                  simp only [parsedQty, hq0, Option.map_some'] at hq'
                  injection hq' with he2
                  exact he2.symm
                have hcond : p.track_inventory = true ∧
                    (p.stock_qty : Int) < (if q0 < (1 : Int) then 1 else q0) := by
                  refine ⟨htr, ?_⟩
                  rw [← hqv]
                  exact hlt
                have he : create_order db f =
                    (db, CreateOrderOutcome.validationError "Not enough stock available.") := by
                  unfold create_order
                  simp only [hq0, if_neg h1, if_neg h2, if_neg h3, if_neg h4, hp, hb,
                    if_pos hcond]
                rw [he]
                exact ⟨rfl, by simp⟩

/-- C3 witness: a customer name that is blank after trimming, with
everything else valid, is rejected and leaves the database unchanged. -/
theorem create_order_validation_failure_no_effect_witness :
    (create_order dbStd (orderFormWith (some 2) (some "1") (some "   "))).1 = dbStd ∧
    (create_order dbStd (orderFormWith (some 2) (some "1") (some "   "))).2 ≠
      CreateOrderOutcome.success :=
  create_order_validation_failure_no_effect dbStd
    (orderFormWith (some 2) (some "1") (some "   ")) (Or.inl (by decide))
